import Mathlib

/-!
Verification of the webvtt-py caption parsers (`src/webvtt/parsers.py`)
against their natural-language specification.

The Python source is shallowly embedded: each parser method becomes a pure
Lean function over explicit state; exceptions become `Except`; the regular
expressions of the source are embedded as executable character-list matchers
that reproduce the behaviour of Python `re.match` on the concrete patterns
appearing in the source (each matcher's doc comment names the pattern it
embeds and justifies the places where greedy matching without backtracking
is exact).
-/

namespace Webvtt

/-- Caption record.  Modelled from the spec: the `Caption` value type lives in
`webvtt/structures.py`, which is not part of the provided sources; per spec
section 3 it holds an optional `identifier`, `start` and `end` timestamps
(formatted strings), the ordered text `lines`, the derived `text` (lines
joined by a single space) and the `flagEndSentence` flag used only by the
sentence-grouping variant. -/
structure Caption where
  identifier : String := ""
  start : String := ""
  «end» : String := ""
  lines : List String := []
  flagEndSentence : Bool := false
deriving Repr, DecidableEq

/-- Derived text of a caption.  Modelled from the spec: "derived `text`
(lines joined by a single space)". -/
def Caption.text (c : Caption) : String :=
  String.intercalate " " c.lines

/-- Appending a text line to a caption (`caption.add_line(line)`). -/
def Caption.add_line (c : Caption) (l : String) : Caption :=
  { c with lines := c.lines ++ [l] }

/-- Assignment `caption.text = t`.  Modelled from the spec: "replace the
caption's `text` with the full accumulator" — the caption content becomes
the given string, so that the derived `text` returns it. -/
def Caption.set_text (c : Caption) (t : String) : Caption :=
  { c with lines := [t] }

/-- Block of consecutive non-blank lines.  Modelled from the spec: "a
contiguous run of non-blank lines plus its 1-based starting line number"
(`webvtt/structures.py` is not part of the provided sources; `Block(index)`
constructs a block with that line number and no lines yet). -/
structure Block where
  line_number : Nat
  lines : List String := []
deriving Repr, DecidableEq

/-- Style record.  Modelled from the spec: "an ordered sequence of raw lines
representing a styling directive block". -/
structure Style where
  lines : List String := []
deriving Repr, DecidableEq

/-- Errors raised by the parsers.  `malformedFile` and `malformedCaption`
embed `MalformedFileError` and `MalformedCaptionError` (from
`webvtt/errors.py`) carrying the formatted message string; `typeError`
models the uncaught Python `TypeError` that `_parse_cue_block` would raise
when `cue_timings` is still `None` at the final assignments (unreachable
when the block really is a cue block). -/
inductive VttError where
  | malformedFile (msg : String)
  | malformedCaption (msg : String)
  | typeError
deriving Repr, DecidableEq

/-! ## Character classes and regex matchers -/

/-- Python regex class `\s` restricted to the ASCII whitespace characters
(the inputs of interest contain no non-ASCII whitespace). -/
def isPySpace (c : Char) : Bool :=
  c == ' ' || c == '\t' || c == '\n' || c == '\r' || c == '\x0b' || c == '\x0c'

/-- Python regex class `\d` restricted to ASCII digits. -/
def isDigitCh (c : Char) : Bool :=
  c.isDigit

/-- Literal `:` inside the timestamp patterns. -/
def isColon (c : Char) : Bool :=
  c == ':'

/-- Regex `.` (any character but a newline), as in the unescaped dot of
`\d{2}:\d{2}.\d{3}`. -/
def anyCh (c : Char) : Bool :=
  c != '\n'

/-- Literal dot: the character the spec claims the millisecond separator
must be. -/
def dotOnly (c : Char) : Bool :=
  c == '.'

/-- Match a fixed-length sequence of single-character classes at the head of
the input, returning the consumed characters and the rest. -/
def matchSeq : List (Char → Bool) → List Char → Option (List Char × List Char)
  | [], s => some ([], s)
  | _ :: _, [] => none
  | p :: ps, c :: cs =>
    if p c then
      match matchSeq ps cs with
      | some (m, r) => some (c :: m, r)
      | none => none
    else none

/-- Character classes of `\d{2}:\d{2}SEP\d{3}` where `SEP` is the class at
the millisecond-separator position. -/
def mmssPat (sep : Char → Bool) : List (Char → Bool) :=
  [isDigitCh, isDigitCh, isColon, isDigitCh, isDigitCh, sep, isDigitCh, isDigitCh, isDigitCh]

/-- Matcher for `\d{2}:\d{2}SEP\d{3}` (the hourless timestamp form). -/
def matchMMSS (sep : Char → Bool) (s : List Char) : Option (List Char × List Char) :=
  matchSeq (mmssPat sep) s

/-- Split a maximal leading run of digits (the greedy `\d+`). -/
def splitDigits : List Char → List Char × List Char
  | [] => ([], [])
  | c :: cs =>
    if isDigitCh c then
      let (ds, r) := splitDigits cs
      (c :: ds, r)
    else ([], c :: cs)

/-- Matcher for `\d+:\d{2}:\d{2}SEP\d{3}` (timestamp with mandatory hours).
The greedy `\d+` needs no backtracking: it is immediately followed by `:`,
and any shorter digit run would end in front of another digit, which cannot
match `:`. -/
def matchHoursTS (sep : Char → Bool) (s : List Char) : Option (List Char × List Char) :=
  match splitDigits s with
  | (d :: ds, ':' :: rest2) =>
    (match matchMMSS sep rest2 with
     | some (m, r) => some (d :: ds ++ ':' :: m, r)
     | none => none)
  | _ => none

/-- Matcher for `(?:\d+:)?\d{2}:\d{2}SEP\d{3}` (optional hours).  The regex
first tries the optional group; on failure of the remainder it backtracks to
the hourless form, which is exactly the fallback below. -/
def matchTS (sep : Char → Bool) (s : List Char) : Option (List Char × List Char) :=
  match matchHoursTS sep s with
  | some r => some r
  | none => matchMMSS sep s

/-- Literal `-->` between the two timestamps: succeeds when the input
starts with the three characters, returning the rest. -/
def arrowTail : List Char → Option (List Char)
  | '-' :: '-' :: '>' :: r => some r
  | _ => none

/-- Matcher for `\s*(TS)\s*-->\s*(TS)` given a timestamp matcher, returning
the two captured groups (`re.match` anchors at the start only, so trailing
input is ignored).  The greedy `\s*` runs need no backtracking: the
following required characters (a digit, a dash) are never whitespace. -/
def matchTimeframeArrow (ts : List Char → Option (List Char × List Char))
    (s : List Char) : Option (String × String) :=
  (ts (s.dropWhile isPySpace)).bind fun g1r1 =>
    (arrowTail (g1r1.2.dropWhile isPySpace)).bind fun r3 =>
      (ts (r3.dropWhile isPySpace)).map fun g2r2 => (String.mk g1r1.1, String.mk g2r2.1)

/-- Embedding of `WebVTTParser.TIMEFRAME_LINE_PATTERN` (also used by
`WebVTTParserCDP`):
`\s*((?:\d+:)?\d{2}:\d{2}.\d{3})\s*-->\s*((?:\d+:)?\d{2}:\d{2}.\d{3})`.
The dot before the milliseconds is unescaped in the source, hence matches
any character. -/
def matchTimeframeVTT (s : List Char) : Option (String × String) :=
  matchTimeframeArrow (matchTS anyCh) s

/-- Timing-line pattern as the spec words it for the block cue format:
identical to `matchTimeframeVTT` except that the millisecond separator is
the literal character `.` ("`.` before milliseconds").  This definition
follows the spec's words, for comparison with the source pattern. -/
def matchTimeframeDot (s : List Char) : Option (String × String) :=
  matchTimeframeArrow (matchTS dotOnly) s

/-- Embedding of `SRTParser.TIMEFRAME_LINE_PATTERN`:
`\s*(\d+:\d{2}:\d{2},\d{3})\s*-->\s*(\d+:\d{2}:\d{2},\d{3})` (hours
mandatory, literal comma before milliseconds). -/
def matchTimeframeSRT (s : List Char) : Option (String × String) :=
  matchTimeframeArrow (matchHoursTS (fun c => c == ',')) s

/-- Embedding of `SBVParser.TIMEFRAME_LINE_PATTERN`:
`\s*(\d+:\d{2}:\d{2}.\d{3}),(\d+:\d{2}:\d{2}.\d{3})` (comma between the two
timestamps, unescaped dot before the milliseconds). -/
def matchTimeframeSBV (s : List Char) : Option (String × String) :=
  match matchHoursTS anyCh (s.dropWhile isPySpace) with
  | none => none
  | some (g1, r1) =>
    match r1 with
    | ',' :: r2 =>
      (match matchHoursTS anyCh r2 with
       | none => none
       | some (g2, _) => some (String.mk g1, String.mk g2))
    | _ => none

/-- Embedding of `'-->' in line` (`_is_cue_timings_line` /
`SRTParser._is_timeframe_line`). -/
def containsArrow : List Char → Bool
  | '-' :: '-' :: '>' :: _ => true
  | _ :: cs => containsArrow cs
  | [] => false

/-- Embedding of Python `line.isdigit()` for ASCII content: non-empty and
all characters digits. -/
def pyIsDigit (s : List Char) : Bool :=
  !s.isEmpty && s.all isDigitCh

/-- Tail of the comment pattern `NOTE(?:\s.+|$)` after the literal `NOTE`:
either the end of the string, or one whitespace character followed by at
least one character (the `.` of `.+` excludes a newline). -/
def commentTail : List Char → Bool
  | [] => true
  | c :: cs => isPySpace c && (cs.headD '\n') != '\n'

/-- Embedding of `re.match(COMMENT_PATTERN, line)` with
`COMMENT_PATTERN = NOTE(?:\s.+|$)`. -/
def isCommentLine (s : List Char) : Bool :=
  decide (s.take 4 = ['N', 'O', 'T', 'E']) && commentTail (s.drop 4)

/-- Tail of the style pattern `STYLE[ \t]*$` after the literal `STYLE`:
spaces and tabs up to the end of the string (Python `$` also matches just
before one final newline). -/
def styleTail (s : List Char) : Bool :=
  let t := s.dropWhile (fun c => c == ' ' || c == '\t')
  decide (t = []) || decide (t = ['\n'])

/-- Embedding of `re.match(STYLE_PATTERN, line)` with
`STYLE_PATTERN = STYLE[ \t]*$`. -/
def isStyleLine (s : List Char) : Bool :=
  decide (s.take 5 = ['S', 'T', 'Y', 'L', 'E']) && styleTail (s.drop 5)

/-- Embedding of `re.match(IDENTIFY_SENTENCE, line)` with
`IDENTIFY_SENTENCE = .*[.!?]`: a match exists exactly when a sentence
terminator is reachable through non-newline characters. -/
def hasSentenceEnd : List Char → Bool
  | [] => false
  | c :: cs => (c == '.' || c == '!' || c == '?') || (c != '\n' && hasSentenceEnd cs)

/-! ## Generic line-classifying parser (`TextBasedParser._parse`) -/

/-- Format grammar consumed by the generic line-classifying parser: the
subclass hooks `_is_timeframe_line`, `_validate_timeframe_line` (a `some`
result carries the two captured timestamps), `_should_skip_line` and the
`ignore_empty_captions` entry of `PARSER_OPTIONS`. -/
structure TextGrammar where
  is_timeframe_line : String → Bool
  validate_timeframe_line : String → Option (String × String)
  should_skip_line : String → Nat → Option Caption → Bool
  ignore_empty_captions : Bool

/-- One iteration of the loop in `TextBasedParser._parse`, acting on the
state `(self.captions, c)` for the 0-based line index `index`. -/
def textStep (g : TextGrammar) (st : List Caption × Option Caption)
    (index : Nat) (line : String) : Except VttError (List Caption × Option Caption) :=
  let (captions, c) := st
  if g.is_timeframe_line line then
    match g.validate_timeframe_line line with
    | none =>
      .error (.malformedCaption ("Invalid time format in line " ++ toString (index + 1)))
    | some (s, e) =>
      .ok (captions, some { start := s, «end» := e })
  else if g.should_skip_line line index c then
    .ok (captions, c)
  else if line ≠ "" then
    match c with
    | none =>
      .error (.malformedCaption ("Caption missing timeframe in line " ++ toString (index + 1) ++ "."))
    | some cap => .ok (captions, some (cap.add_line line))
  else
    match c with
    | none => .ok (captions, none)
    | some cap =>
      if cap.lines = [] then
        if g.ignore_empty_captions then
          .ok (captions, none)
        else
          .error (.malformedCaption ("Caption missing text in line " ++ toString (index + 1) ++ "."))
      else
        .ok (captions ++ [cap], none)

/-- The `for index, line in enumerate(lines)` loop of
`TextBasedParser._parse`. -/
def textLoop (g : TextGrammar) :
    List Caption × Option Caption → Nat → List String →
    Except VttError (List Caption × Option Caption)
  | st, _, [] => .ok st
  | st, i, l :: ls =>
    match textStep g st i l with
    | .error e => .error e
    | .ok st2 => textLoop g st2 (i + 1) ls

/-- Embedding of `TextBasedParser._parse`: run the line loop from the empty
state, then append a still-open caption exactly when it has text lines. -/
def textParse (g : TextGrammar) (lines : List String) : Except VttError (List Caption) :=
  match textLoop g ([], none) 0 lines with
  | .error e => .error e
  | .ok (captions, c) =>
    .ok (match c with
         | some cap => if cap.lines ≠ [] then captions ++ [cap] else captions
         | none => captions)

/-- Grammar of `SRTParser`: timing lines are detected by `'-->' in line`,
validated against the comma pattern, bare numeric index lines before a
timing line are skipped, and `ignore_empty_captions` is enabled. -/
def srtGrammar : TextGrammar :=
  { is_timeframe_line := fun line => containsArrow line.toList
    validate_timeframe_line := fun line => matchTimeframeSRT line.toList
    should_skip_line := fun line _ c => c.isNone && pyIsDigit line.toList
    ignore_empty_captions := true }

/-- Grammar of `SBVParser`: timing lines are exactly the lines matching the
comma-separated timestamp pair pattern; nothing is skipped and empty
captions are not tolerated (`PARSER_OPTIONS` is the empty default). -/
def sbvGrammar : TextGrammar :=
  { is_timeframe_line := fun line => (matchTimeframeSBV line.toList).isSome
    validate_timeframe_line := fun line => matchTimeframeSBV line.toList
    should_skip_line := fun _ _ _ => false
    ignore_empty_captions := false }

/-- Embedding of `SRTParser._validate` followed by `_parse` (the `read`
pipeline after line acquisition): at least two lines, first line `1`,
second line a valid timeframe line. -/
def srtParseFile (lines : List String) : Except VttError (List Caption) :=
  if lines.length < 2 then
    .error (.malformedFile "The file does not have a valid format.")
  else if lines.headD "" ≠ "1" then
    .error (.malformedFile "The file does not have a valid format.")
  else if (matchTimeframeSRT ((lines.drop 1).headD "").toList).isNone then
    .error (.malformedFile "The file does not have a valid format.")
  else
    textParse srtGrammar lines

/-! ## Block decomposition (`_compute_blocks`)

The method appears verbatim in both `WebVTTParser` and `WebVTTParserCDP`;
one embedding serves both. -/

/-- Loop of `_compute_blocks`, carrying the block list in reverse so the
mutations of `blocks[-1]` act on the head.  `i` is the 1-based line index
(`enumerate(lines, start=1)`). -/
def computeBlocksAux : Nat → List String → List Block → List Block
  | _, [], rev => rev.reverse
  | i, l :: ls, rev =>
    if l = "" then
      computeBlocksAux (i + 1) ls ({ line_number := i, lines := [] } :: rev)
    else
      match rev with
      | [] => computeBlocksAux (i + 1) ls [{ line_number := i, lines := [l] }]
      | b :: bs =>
        if b.lines = [] then
          computeBlocksAux (i + 1) ls ({ line_number := i, lines := [l] } :: bs)
        else
          computeBlocksAux (i + 1) ls ({ b with lines := b.lines ++ [l] } :: bs)

/-- Embedding of `_compute_blocks`: group consecutive non-blank lines into
blocks recording the 1-based line number of each block's first line, drop
the empty blocks, then drop the first surviving block (the signature). -/
def compute_blocks (lines : List String) : List Block :=
  ((computeBlocksAux 1 lines []).filter (fun b => b.lines ≠ [])).drop 1

/-- Embedding of `_is_cue_block`: one of the first two lines contains
`-->`. -/
def isCueBlock (blk : Block) : Bool :=
  (blk.lines.take 2).any (fun l => containsArrow l.toList)

/-- Embedding of `_is_comment_block` (the blocks reaching it always have at
least one line, so the default for an absent first line is irrelevant). -/
def isCommentBlock (blk : Block) : Bool :=
  isCommentLine (blk.lines.headD "").toList

/-- Embedding of `_is_style_block`. -/
def isStyleBlock (blk : Block) : Bool :=
  isStyleLine (blk.lines.headD "").toList

/-! ## Block-structured parser (`WebVTTParser`) -/

/-- Loop of `WebVTTParser._parse_cue_block` over the block's lines: `bln` is
`block.line_number`, `n` the 0-based position inside the block, and the
state is `(caption, cue_timings)`. -/
def cueBlockLoop (bln : Nat) :
    Nat → Caption → Option (String × String) → List String →
    Except VttError (Caption × Option (String × String))
  | _, cap, ct, [] => .ok (cap, ct)
  | n, cap, ct, l :: ls =>
    if containsArrow l.toList then
      match ct with
      | none =>
        match matchTimeframeVTT l.toList with
        | none =>
          .error (.malformedCaption ("Invalid time format in line " ++ toString (bln + n)))
        | some tf => cueBlockLoop bln (n + 1) cap (some tf) ls
      | some _ =>
        .error (.malformedCaption ("--> found in line " ++ toString (bln + n)))
    else if n = 0 then
      cueBlockLoop bln (n + 1) { cap with identifier := l } ct ls
    else
      cueBlockLoop bln (n + 1) (cap.add_line l) ct ls

/-- Embedding of `WebVTTParser._parse_cue_block`: run the line loop from a
fresh caption, then install the two timestamps (`caption.start`,
`caption.end`); a still-absent `cue_timings` would be the Python
`TypeError`. -/
def parse_cue_block (blk : Block) : Except VttError Caption :=
  match cueBlockLoop blk.line_number 0 {} none blk.lines with
  | .error e => .error e
  | .ok (cap, some (s, e)) => .ok { cap with start := s, «end» := e }
  | .ok (_, none) => .error .typeError

/-- Parser-instance state of `WebVTTParser`: the `captions` and `styles`
accumulator lists. -/
structure VTTState where
  captions : List Caption := []
  styles : List Style := []
deriving Repr, DecidableEq

/-- One iteration of the block loop in `WebVTTParser._parse`, classifying a
block in the source's priority order: cue, comment, style, malformed. -/
def vttStep (st : VTTState) (blk : Block) : Except VttError VTTState :=
  if isCueBlock blk then
    match parse_cue_block blk with
    | .error e => .error e
    | .ok cap => .ok { st with captions := st.captions ++ [cap] }
  else if isCommentBlock blk then
    .ok st
  else if isStyleBlock blk then
    if st.captions ≠ [] then
      .error (.malformedFile
        ("Style block defined after the first cue in line " ++ toString blk.line_number ++ "."))
    else
      .ok { st with styles := st.styles ++ [{ lines := blk.lines.drop 1 }] }
  else if blk.lines.length = 1 then
    .error (.malformedCaption
      ("Standalone cue identifier in line " ++ toString blk.line_number ++ "."))
  else
    .error (.malformedCaption
      ("Missing timing cue in line " ++ toString (blk.line_number + 1) ++ "."))

/-- The `for block in self.blocks` loop of `WebVTTParser._parse`. -/
def vttLoop : VTTState → List Block → Except VttError VTTState
  | st, [] => .ok st
  | st, b :: bs =>
    match vttStep st b with
    | .error e => .error e
    | .ok st2 => vttLoop st2 bs

/-- Embedding of `WebVTTParser._parse` on an instance whose `styles` list
currently holds `styles0`: `self.captions` is reset to `[]`, but
`self.styles` (initialized only in `__init__`) is not. -/
def webvttParse (styles0 : List Style) (lines : List String) : Except VttError VTTState :=
  vttLoop { captions := [], styles := styles0 } (compute_blocks lines)

/-! ## Sentence-grouping variant (`WebVTTParserCDP`) -/

/-- Loop of `WebVTTParserCDP._parse_cue_block`: identical to the plain
variant except that every text line is first tested against
`IDENTIFY_SENTENCE`, setting `flagEndSentence`. -/
def cueBlockLoopCDP (bln : Nat) :
    Nat → Caption → Option (String × String) → List String →
    Except VttError (Caption × Option (String × String))
  | _, cap, ct, [] => .ok (cap, ct)
  | n, cap, ct, l :: ls =>
    if containsArrow l.toList then
      match ct with
      | none =>
        match matchTimeframeVTT l.toList with
        | none =>
          .error (.malformedCaption ("Invalid time format in line " ++ toString (bln + n)))
        | some tf => cueBlockLoopCDP bln (n + 1) cap (some tf) ls
      | some _ =>
        .error (.malformedCaption ("--> found in line " ++ toString (bln + n)))
    else if n = 0 then
      cueBlockLoopCDP bln (n + 1) { cap with identifier := l } ct ls
    else
      let cap := if hasSentenceEnd l.toList then { cap with flagEndSentence := true } else cap
      cueBlockLoopCDP bln (n + 1) (cap.add_line l) ct ls

/-- Embedding of `WebVTTParserCDP._parse_cue_block`. -/
def parse_cue_block_cdp (blk : Block) : Except VttError Caption :=
  match cueBlockLoopCDP blk.line_number 0 {} none blk.lines with
  | .error e => .error e
  | .ok (cap, some (s, e)) => .ok { cap with start := s, «end» := e }
  | .ok (_, none) => .error .typeError

/-- Parser-instance state of `WebVTTParserCDP` during `_parse`: the output
lists plus the sentence accumulator `group_captions` and the remembered
`start_time`. -/
structure CDPState where
  captions : List Caption := []
  styles : List Style := []
  group_captions : String := ""
  start_time : String := "00:00:00.000"
deriving Repr, DecidableEq

/-- One iteration of the block loop in `WebVTTParserCDP._parse`: cue blocks
feed the sentence accumulator and only a cue whose `flagEndSentence` is set
flushes a caption; comment, style and malformed blocks behave as in
`WebVTTParser._parse`. -/
def cdpStep (st : CDPState) (blk : Block) : Except VttError CDPState :=
  if isCueBlock blk then
    match parse_cue_block_cdp blk with
    | .error e => .error e
    | .ok cap =>
      let start_time := if st.group_captions = "" then cap.start else st.start_time
      let group_captions := st.group_captions ++ " " ++ cap.text
      if cap.flagEndSentence then
        .ok { st with
              captions := st.captions ++ [{ (cap.set_text group_captions) with start := start_time }]
              group_captions := ""
              start_time := start_time }
      else
        .ok { st with group_captions := group_captions, start_time := start_time }
  else if isCommentBlock blk then
    .ok st
  else if isStyleBlock blk then
    if st.captions ≠ [] then
      .error (.malformedFile
        ("Style block defined after the first cue in line " ++ toString blk.line_number ++ "."))
    else
      .ok { st with styles := st.styles ++ [{ lines := blk.lines.drop 1 }] }
  else if blk.lines.length = 1 then
    .error (.malformedCaption
      ("Standalone cue identifier in line " ++ toString blk.line_number ++ "."))
  else
    .error (.malformedCaption
      ("Missing timing cue in line " ++ toString (blk.line_number + 1) ++ "."))

/-- The `for block in self.blocks` loop of `WebVTTParserCDP._parse`. -/
def cdpLoop : CDPState → List Block → Except VttError CDPState
  | st, [] => .ok st
  | st, b :: bs =>
    match cdpStep st b with
    | .error e => .error e
    | .ok st2 => cdpLoop st2 bs

/-- Embedding of `WebVTTParserCDP._parse` on an instance whose `styles`
list currently holds `styles0`. -/
def cdpParse (styles0 : List Style) (lines : List String) : Except VttError CDPState :=
  cdpLoop { captions := [], styles := styles0, group_captions := "", start_time := "00:00:00.000" }
    (compute_blocks lines)

/-- Decidable equality on `Except`, so that concrete parser runs can be
checked by `decide`. -/
instance {ε α : Type} [DecidableEq ε] [DecidableEq α] : DecidableEq (Except ε α) := fun x y =>
  match x, y with
  | .ok a, .ok b =>
    if h : a = b then isTrue (by rw [h]) else isFalse (fun hh => by cases hh; exact h rfl)
  | .error a, .error b =>
    if h : a = b then isTrue (by rw [h]) else isFalse (fun hh => by cases hh; exact h rfl)
  | .ok _, .error _ => isFalse (fun hh => by cases hh)
  | .error _, .ok _ => isFalse (fun hh => by cases hh)

/-! ## Theorems -/

/-- Claim C2: for the sentence-grouping parser, two consecutive cue blocks
carrying text `["Hello"]` and `["world."]`, with terminal punctuation only
on the second, produce exactly one caption whose text is `" Hello world."`
(each cue's joined text is appended with a space prefix), whose start is
the first cue's start timestamp and whose end is the second cue's end
timestamp. -/
theorem c2_sentence_grouping :
    (cdpParse [] ["WEBVTT", "", "00:00:01.000 --> 00:00:02.000", "Hello", "",
                  "00:00:02.000 --> 00:00:03.000", "world."]).map
        (fun st => st.captions.map (fun c => (c.text, c.start, c.«end»))) =
      .ok [(" Hello world.", "00:00:01.000", "00:00:03.000")] := by
  decide

/-- Claim C8: for the numbered-cue format, a first cue with a body followed
by a second cue whose body is blank yields exactly one caption — the empty
second cue is silently discarded by the blank-line step because
`ignore_empty_captions` is set for this format. -/
theorem c8_srt_empty_caption_tolerance :
    srtParseFile ["1", "1:00:00,000 --> 1:00:02,500", "Hi there", "",
                  "2", "1:00:03,000 --> 1:00:04,500", ""] =
      .ok [{ identifier := "", start := "1:00:00,000", «end» := "1:00:02,500",
             lines := ["Hi there"], flagEndSentence := false }] := by
  decide

/-- Claim C1, counterexample: the block-structured parser does emit a
caption with zero text lines — a cue block consisting of a single timing
line is parsed into a caption whose `lines` list is empty, and that caption
is appended to the output. -/
theorem c1_block_empty_caption_counterexample :
    webvttParse [] ["WEBVTT", "", "00:00:00.000 --> 00:00:01.000"] =
      .ok { captions := [{ identifier := "", start := "00:00:00.000", «end» := "00:00:01.000",
                           lines := [], flagEndSentence := false }],
            styles := [] } := by
  decide

/-- Claim C3, counterexample: the block of the input below starts at line 3
and contains no timing marker, yet the reported message carries line 4
(`block.line_number + 1`), not the block's starting line number as the
claim states for the multi-line case. -/
theorem c3_line_attribution_counterexample :
    compute_blocks ["WEBVTT", "", "abc", "def"] =
      [{ line_number := 3, lines := ["abc", "def"] }] ∧
    webvttParse [] ["WEBVTT", "", "abc", "def"] =
      .error (.malformedCaption "Missing timing cue in line 4.") := by
  exact ⟨by decide, by decide⟩

/-- Claim C5, counterexample: the line `00:00x000 --> 00:01y000` does not
match the claimed pattern (whose millisecond separator is the literal
character `.`), yet the parser accepts it as a valid timing line — the
pattern's dot is an unescaped regex dot matching any character — so
acceptance is not "exactly" matching the claimed pattern. -/
theorem c5_timing_separator_counterexample :
    (matchTimeframeVTT ("00:00x000 --> 00:01y000".toList)).isSome = true ∧
    (matchTimeframeDot ("00:00x000 --> 00:01y000".toList)).isSome = false ∧
    webvttParse [] ["WEBVTT", "", "00:00x000 --> 00:01y000"] =
      .ok { captions := [{ identifier := "", start := "00:00x000", «end» := "00:01y000",
                           lines := [], flagEndSentence := false }],
            styles := [] } := by
  exact ⟨by decide, by decide, by decide⟩

/-- Claim C6, counterexample: after one caption has been appended, a block
whose first line matches the style-header pattern but whose second line
contains the timing marker is classified as a cue block (cue classification
has priority), so the parse succeeds with a second caption whose identifier
is `STYLE` — no `MalformedFile` error is raised. -/
theorem c6_style_after_cue_counterexample :
    isStyleLine ("STYLE".toList) = true ∧
    webvttParse [] ["WEBVTT", "", "00:00:01.000 --> 00:00:02.000", "a", "",
                    "STYLE", "00:00:03.000 --> 00:00:04.000"] =
      .ok { captions := [{ identifier := "", start := "00:00:01.000", «end» := "00:00:02.000",
                           lines := ["a"], flagEndSentence := false },
                         { identifier := "STYLE", start := "00:00:03.000", «end» := "00:00:04.000",
                           lines := [], flagEndSentence := false }],
            styles := [] } := by
  exact ⟨by decide, by decide⟩

/-- Claim C7, counterexample: after a first parse that collected one style
record, re-invoking parse on the same instance yields a `styles` list that
still contains the first file's style — different from the empty `styles`
a fresh parser produces on the second input alone (`self.styles` is never
reset by `_parse`). -/
theorem c7_reparse_counterexample :
    webvttParse [] ["WEBVTT", "", "STYLE", "x"] =
      .ok { captions := [], styles := [{ lines := ["x"] }] } ∧
    webvttParse [{ lines := ["x"] }] ["WEBVTT", "", "00:00:01.000 --> 00:00:02.000", "hi"] =
      .ok { captions := [{ identifier := "", start := "00:00:01.000", «end» := "00:00:02.000",
                           lines := ["hi"], flagEndSentence := false }],
            styles := [{ lines := ["x"] }] } ∧
    webvttParse [] ["WEBVTT", "", "00:00:01.000 --> 00:00:02.000", "hi"] =
      .ok { captions := [{ identifier := "", start := "00:00:01.000", «end» := "00:00:02.000",
                           lines := ["hi"], flagEndSentence := false }],
            styles := [] } := by
  exact ⟨by decide, by decide, by decide⟩

/-- Claim C9: in the generic line-classifying parser, a line matching the
timing pattern while a caption is already open — whatever text it has
accumulated — replaces the open caption with a fresh one: the old caption
is not appended to the output and no error is raised. -/
theorem c9_open_caption_replaced (g : TextGrammar) (captions : List Caption) (cap : Caption)
    (i : Nat) (line : String) (s e : String)
    (h1 : g.is_timeframe_line line = true)
    (h2 : g.validate_timeframe_line line = some (s, e)) :
    textStep g (captions, some cap) i line =
      .ok (captions, some { identifier := "", start := s, «end» := e,
                            lines := [], flagEndSentence := false }) := by
  simp [textStep, h1, h2]

/-- Witness for C9 at a concrete input: an open caption that already has a
text line is silently replaced when a second timing line arrives. -/
theorem c9_open_caption_replaced_witness :
    textStep srtGrammar
        ([], some { identifier := "", start := "1:00:00,000", «end» := "1:00:01,000",
                    lines := ["old text"], flagEndSentence := false })
        5 "1:00:02,000 --> 1:00:03,000" =
      .ok ([], some { identifier := "", start := "1:00:02,000", «end» := "1:00:03,000",
                      lines := [], flagEndSentence := false }) :=
  c9_open_caption_replaced srtGrammar [] _ 5 _ _ _ (by decide) (by decide)

/-- Claim C10: in the generic line-classifying parser, reaching the end of
input with an open caption that has no text lines completes the parse
successfully — the caption is simply excluded from the output and no error
is raised, for every grammar (in particular for formats that do not enable
`ignore_empty_captions`). -/
theorem c10_open_empty_caption_at_eof (g : TextGrammar) (lines : List String)
    (cs : List Caption) (cap : Caption)
    (h : textLoop g ([], none) 0 lines = .ok (cs, some cap)) (hl : cap.lines = []) :
    textParse g lines = .ok cs := by
  unfold textParse
  rw [h]
  simp [hl]

/-- Witness for C10 at a concrete input of the comma-timing format (whose
grammar does not tolerate empty captions): the trailing timing line opens a
caption that never receives text, and the parse still succeeds. -/
theorem c10_open_empty_caption_at_eof_witness :
    textParse sbvGrammar ["0:00:00.000,0:00:01.000", "hi", "", "0:00:01.000,0:00:02.000"] =
      .ok [{ identifier := "", start := "0:00:00.000", «end» := "0:00:01.000",
             lines := ["hi"], flagEndSentence := false }] :=
  c10_open_empty_caption_at_eof sbvGrammar _ _
    { identifier := "", start := "0:00:01.000", «end» := "0:00:02.000",
      lines := [], flagEndSentence := false }
    (by decide) rfl

/-- Helper: a first line matching the style-header pattern cannot also
match the comment pattern (`STYLE` versus `NOTE`). -/
theorem isStyleLine_not_comment (s : List Char) (h : isStyleLine s = true) :
    isCommentLine s = false := by
  obtain ⟨h1, -⟩ := (Bool.and_eq_true _ _).mp h
  have h5 : s.take 5 = ['S', 'T', 'Y', 'L', 'E'] := of_decide_eq_true h1
  have h4 : s.take 4 = ['S', 'T', 'Y', 'L'] := by
    have := congrArg (List.take 4) h5
    rw [List.take_take] at this
    simpa using this
  unfold isCommentLine
  rw [h4]
  simp

/-- Claim C3, amended: a block with no timing marker in its first two lines
matching neither the comment nor the style pattern fails with
`MalformedCaption`; the message carries the block's starting line number
and classifies the block as a standalone cue identifier when it is exactly
one line, but for a longer block it classifies it as a missing timing cue
and carries the starting line number plus one. -/
theorem c3_malformed_block_line_attribution (st : VTTState) (blk : Block)
    (h1 : isCueBlock blk = false) (h2 : isCommentBlock blk = false)
    (h3 : isStyleBlock blk = false) :
    vttStep st blk =
      .error (.malformedCaption
        (if blk.lines.length = 1 then
          "Standalone cue identifier in line " ++ toString blk.line_number ++ "."
         else
          "Missing timing cue in line " ++ toString (blk.line_number + 1) ++ ".")) := by
  unfold vttStep
  simp [h1, h2, h3]
  split <;> rfl

/-- Witness for C3 at a concrete two-line block starting at line 3: the
reported message carries line 4. -/
theorem c3_malformed_block_line_attribution_witness :
    vttStep {} { line_number := 3, lines := ["abc", "def"] } =
      .error (.malformedCaption "Missing timing cue in line 4.") :=
  c3_malformed_block_line_attribution {} _ (by decide) (by decide) (by decide)

/-- Helper: once the captions list is non-empty, a successful block step
leaves the styles list unchanged and the captions list non-empty. -/
theorem vttStep_after_caption (st : VTTState) (blk : Block) (st2 : VTTState)
    (hne : st.captions ≠ []) (h : vttStep st blk = .ok st2) :
    st2.styles = st.styles ∧ st2.captions ≠ [] := by
  unfold vttStep at h
  repeat' split at h
  all_goals cases h
  · exact ⟨rfl, by simp⟩
  · exact ⟨rfl, hne⟩

/-- Helper: over a whole block loop, styles never change once a caption has
been emitted. -/
theorem vttLoop_after_caption (blks : List Block) : ∀ st st2 : VTTState,
    st.captions ≠ [] → vttLoop st blks = .ok st2 → st2.styles = st.styles := by
  induction blks with
  | nil =>
    intro st st2 _ h
    cases h
    rfl
  | cons b bs ih =>
    intro st st2 hne h
    unfold vttLoop at h
    split at h
    · cases h
    · rename_i st3 hstep
      obtain ⟨hsty, hne3⟩ := vttStep_after_caption st b st3 hne hstep
      rw [ih st3 st2 hne3 h, hsty]

/-- Claim C6, amended: once at least one caption has been appended, a block
whose first line matches the style-header pattern and whose first two lines
contain no timing marker (otherwise cue classification takes priority)
fails with `MalformedFile`; and during any successful continuation of the
block loop no further style record is ever added after the first caption
has been emitted. -/
theorem c6_style_after_cue :
    (∀ (st : VTTState) (blk : Block), st.captions ≠ [] → isCueBlock blk = false →
        isStyleBlock blk = true →
        vttStep st blk = .error (.malformedFile
          ("Style block defined after the first cue in line " ++
            toString blk.line_number ++ "."))) ∧
    (∀ (st st2 : VTTState) (blks : List Block), st.captions ≠ [] →
        vttLoop st blks = .ok st2 → st2.styles = st.styles) := by
  constructor
  · intro st blk hne hcue hstyle
    have hcomment : isCommentBlock blk = false :=
      isStyleLine_not_comment _ hstyle
    unfold vttStep
    simp [hcue, hcomment, hstyle, hne]
  · intro st st2 blks hne h
    exact vttLoop_after_caption blks st st2 hne h

/-- Witness for C6 at a concrete state holding one caption and a pure
`STYLE` block at line 6. -/
theorem c6_style_after_cue_witness :
    vttStep { captions := [{}], styles := [] } { line_number := 6, lines := ["STYLE"] } =
      .error (.malformedFile "Style block defined after the first cue in line 6.") ∧
    ([] : List Style) = [] :=
  ⟨c6_style_after_cue.1 { captions := [{}], styles := [] } _ (by simp) (by decide) (by decide),
   c6_style_after_cue.2 { captions := [{}], styles := [] } { captions := [{}], styles := [] } []
     (by simp) rfl⟩

/-- Claim C4: for the sentence-grouping parser, a run of cue blocks none of
whose captions has `flagEndSentence` set (no text line matches the
terminal-punctuation pattern) contributes nothing to the output and raises
no error, from any state of the block loop — in particular a trailing such
group is silently dropped at end of input. -/
theorem c4_unterminated_group_dropped (st : CDPState) (blks : List Block)
    (h : ∀ blk ∈ blks, isCueBlock blk = true ∧
      (parse_cue_block_cdp blk).map Caption.flagEndSentence = .ok false) :
    (cdpLoop st blks).map CDPState.captions = .ok st.captions ∧
    (cdpLoop st blks).map CDPState.styles = .ok st.styles := by
  induction blks generalizing st with
  | nil => simp [cdpLoop, Except.map]
  | cons b bs ih =>
    obtain ⟨hcue, hflag⟩ := h b (List.mem_cons_self b bs)
    cases hp : parse_cue_block_cdp b with
    | error e => rw [hp] at hflag; simp [Except.map] at hflag
    | ok cap =>
      rw [hp] at hflag
      have hf : cap.flagEndSentence = false := by
        simpa [Except.map] using hflag
      have hstep : cdpLoop st (b :: bs) = cdpLoop { st with
          group_captions := st.group_captions ++ " " ++ cap.text,
          start_time := if st.group_captions = "" then cap.start else st.start_time } bs := by
        simp [cdpLoop, cdpStep, hcue, hp, hf]
      rw [hstep]
      exact ih _ (fun blk hb => h blk (List.mem_cons_of_mem b hb))

/-- Witness for C4 at a single trailing cue block whose only text line,
`Hello`, has no terminal punctuation: the loop output is empty and no
error is raised. -/
theorem c4_unterminated_group_dropped_witness :
    (cdpLoop { captions := [], styles := [], group_captions := "", start_time := "00:00:00.000" }
        [{ line_number := 3, lines := ["00:00:01.000 --> 00:00:02.000", "Hello"] }]).map
        CDPState.captions = .ok [] ∧
    (cdpLoop { captions := [], styles := [], group_captions := "", start_time := "00:00:00.000" }
        [{ line_number := 3, lines := ["00:00:01.000 --> 00:00:02.000", "Hello"] }]).map
        CDPState.styles = .ok [] :=
  c4_unterminated_group_dropped _ _ (by
    intro blk hb
    simp at hb
    subst hb
    exact ⟨by decide, by decide⟩)

/-- Helper: one block step started with extra styles `s0` in front behaves
exactly like the step without them, with `s0` still in front. -/
theorem vttStep_styles_shift (cs : List Caption) (ss s0 : List Style) (blk : Block) :
    vttStep ⟨cs, s0 ++ ss⟩ blk =
      (vttStep ⟨cs, ss⟩ blk).map (fun st => ⟨st.captions, s0 ++ st.styles⟩) := by
  unfold vttStep
  repeat' split
  all_goals simp_all [Except.map, List.append_assoc]

/-- Helper: the whole block loop with extra styles `s0` in front produces
the same captions (or the same error) and the same styles prefixed with
`s0`. -/
theorem vttLoop_styles_shift (blks : List Block) : ∀ (cs : List Caption) (ss s0 : List Style),
    (vttLoop ⟨cs, s0 ++ ss⟩ blks).map VTTState.captions =
      (vttLoop ⟨cs, ss⟩ blks).map VTTState.captions ∧
    (vttLoop ⟨cs, s0 ++ ss⟩ blks).map VTTState.styles =
      (vttLoop ⟨cs, ss⟩ blks).map (fun st => s0 ++ st.styles) := by
  induction blks with
  | nil => intro cs ss s0; simp [vttLoop, Except.map]
  | cons b bs ih =>
    intro cs ss s0
    simp only [vttLoop, vttStep_styles_shift]
    cases h : vttStep ⟨cs, ss⟩ b with
    | error e => simp [Except.map]
    | ok st2 =>
      obtain ⟨cs2, ss2⟩ := st2
      simpa [Except.map] using ih cs2 ss2 s0

/-- Claim C7, amended: re-invoking parse on the same instance produces the
same captions (and the same error, if any) as a fresh instance on the
second input, because `self.captions` is reset at the start of `_parse`;
the styles, however, accumulate: the instance's styles after the re-parse
are its previous styles followed by the styles a fresh instance would
produce. -/
theorem c7_single_use (s0 : List Style) (lines : List String) :
    (webvttParse s0 lines).map VTTState.captions =
      (webvttParse [] lines).map VTTState.captions ∧
    (webvttParse s0 lines).map VTTState.styles =
      (webvttParse [] lines).map (fun st => s0 ++ st.styles) := by
  have h := vttLoop_styles_shift (compute_blocks lines) [] [] s0
  simpa [webvttParse] using h

/-- Helper: one step of the generic line loop preserves the invariant that
every caption already in the output has at least one text line. -/
theorem textStep_nonempty_lines (g : TextGrammar) (st : List Caption × Option Caption)
    (i : Nat) (l : String) (st2 : List Caption × Option Caption)
    (hst : ∀ c ∈ st.1, c.lines ≠ []) (h : textStep g st i l = .ok st2) :
    ∀ c ∈ st2.1, c.lines ≠ [] := by
  obtain ⟨captions, copt⟩ := st
  simp only [textStep] at h
  repeat' split at h
  all_goals cases h
  all_goals dsimp only at hst ⊢
  all_goals try exact hst
  intro c hc
  rcases List.mem_append.mp hc with hc2 | hc2
  · exact hst c hc2
  · rw [List.mem_singleton.mp hc2]
    assumption

/-- Helper: the whole generic line loop preserves the non-empty-lines
invariant of the output list. -/
theorem textLoop_nonempty_lines (g : TextGrammar) (lines : List String) :
    ∀ (st : List Caption × Option Caption) (i : Nat) (st2 : List Caption × Option Caption),
    (∀ c ∈ st.1, c.lines ≠ []) → textLoop g st i lines = .ok st2 →
    ∀ c ∈ st2.1, c.lines ≠ [] := by
  induction lines with
  | nil =>
    intro st i st2 hst h
    cases h
    exact hst
  | cons l ls ih =>
    intro st i st2 hst h
    unfold textLoop at h
    split at h
    · cases h
    · rename_i st3 hstep
      exact ih st3 (i + 1) st2 (textStep_nonempty_lines g st i l st3 hst hstep) h

/-- Claim C1, amended: every caption returned by the generic
line-classifying parser has at least one line of text, for every grammar
(the empty-caption-tolerance option only decides between erroring and
discarding, never emits an empty caption); the block-structured parser,
however, can emit a caption with zero text lines from a cue block
consisting only of a timing line (see the counterexample). -/
theorem c1_generic_caption_lines_nonempty (g : TextGrammar) (lines : List String)
    (cs : List Caption) (h : textParse g lines = .ok cs) :
    ∀ c ∈ cs, c.lines ≠ [] := by
  unfold textParse at h
  cases hl : textLoop g ([], none) 0 lines with
  | error e => rw [hl] at h; cases h
  | ok st2 =>
    rw [hl] at h
    obtain ⟨captions, copt⟩ := st2
    have hinv := textLoop_nonempty_lines g lines ([], none) 0 (captions, copt) (by simp) hl
    dsimp only at hinv
    cases copt with
    | none => cases h; exact hinv
    | some cap =>
      simp only at h
      split at h
      · cases h
        rename_i hne
        intro c hc
        rcases List.mem_append.mp hc with hc2 | hc2
        · exact hinv c hc2
        · rw [List.mem_singleton.mp hc2]
          exact hne
      · cases h
        exact hinv

/-- Witness for C1 at a concrete numbered-cue input producing one caption
with the single text line `hi`. -/
theorem c1_generic_caption_lines_nonempty_witness :
    ({ identifier := "", start := "1:00:00,000", «end» := "1:00:01,000",
       lines := ["hi"], flagEndSentence := false } : Caption).lines ≠ [] :=
  c1_generic_caption_lines_nonempty srtGrammar ["1:00:00,000 --> 1:00:01,000", "hi"]
    [{ identifier := "", start := "1:00:00,000", «end» := "1:00:01,000",
       lines := ["hi"], flagEndSentence := false }]
    (by decide)
    { identifier := "", start := "1:00:00,000", «end» := "1:00:01,000",
      lines := ["hi"], flagEndSentence := false }
    (by simp)

/-- Helper: matching a sequence of character classes is monotone in the
pointwise implication of the classes. -/
theorem matchSeq_mono {ps qs : List (Char → Bool)}
    (hpq : List.Forall₂ (fun p q => ∀ c, p c = true → q c = true) ps qs) :
    ∀ s r, matchSeq ps s = some r → matchSeq qs s = some r := by
  induction hpq with
  | nil => intro s r h; exact h
  | cons h1 _ ih =>
    intro s r h
    cases s with
    | nil => exact absurd h (by simp [matchSeq])
    | cons c cs =>
      simp only [matchSeq] at h ⊢
      split at h
      · rename_i hpc
        rw [if_pos (h1 c hpc)]
        split at h
        · rename_i m rr hm
          rw [ih cs (m, rr) hm]
          exact h
        · cases h
      · cases h

/-- Helper: the character classes of the dot-separator timestamp imply
those of the any-separator timestamp pointwise. -/
theorem mmssPat_rel :
    List.Forall₂ (fun p q => ∀ c, p c = true → q c = true) (mmssPat dotOnly) (mmssPat anyCh) := by
  unfold mmssPat
  refine .cons (fun c h => h) (.cons (fun c h => h) (.cons (fun c h => h)
    (.cons (fun c h => h) (.cons (fun c h => h) (.cons ?_ (.cons (fun c h => h)
    (.cons (fun c h => h) (.cons (fun c h => h) .nil))))))))
  intro c h
  have hc : c = '.' := by simpa [dotOnly] using h
  subst hc
  decide

/-- Helper: inversion of one step of `matchSeq`. -/
theorem matchSeq_cons_inv {p : Char → Bool} {ps : List (Char → Bool)} {s : List Char}
    {r : List Char × List Char} (h : matchSeq (p :: ps) s = some r) :
    ∃ c cs m rr, s = c :: cs ∧ p c = true ∧ matchSeq ps cs = some (m, rr) ∧ r = (c :: m, rr) := by
  cases s with
  | nil => exact absurd h (by simp [matchSeq])
  | cons c cs =>
    simp only [matchSeq] at h
    split at h
    · rename_i hpc
      split at h
      · rename_i m rr hm
        cases h
        exact ⟨c, cs, m, rr, rfl, hpc, hm, rfl⟩
      · cases h
    · cases h

/-- Helper: a dot-separator timestamp match is also an any-separator
match. -/
theorem matchMMSS_mono_dot {s : List Char} {r : List Char × List Char}
    (h : matchMMSS dotOnly s = some r) : matchMMSS anyCh s = some r :=
  matchSeq_mono mmssPat_rel s r h

/-- Helper: `splitDigits` steps over a leading digit. -/
theorem splitDigits_digit {c : Char} (t : List Char) (hc : isDigitCh c = true) :
    splitDigits (c :: t) = (c :: (splitDigits t).1, (splitDigits t).2) := by
  simp [splitDigits, hc]

/-- Helper: `splitDigits` stops at a non-digit. -/
theorem splitDigits_nondigit {c : Char} (t : List Char) (hc : isDigitCh c = false) :
    splitDigits (c :: t) = ([], c :: t) := by
  simp [splitDigits, hc]

/-- Helper: shape of an input accepted by the hourless dot-separator
timestamp: two digits, a colon, two digits, a literal dot. -/
theorem matchMMSS_dot_shape {s : List Char} {r : List Char × List Char}
    (h : matchMMSS dotOnly s = some r) :
    ∃ a b d e rest, s = a :: b :: ':' :: d :: e :: '.' :: rest ∧
      isDigitCh a = true ∧ isDigitCh b = true ∧ isDigitCh d = true ∧ isDigitCh e = true := by
  unfold matchMMSS mmssPat at h
  obtain ⟨a, s1, m1, r1, hs, ha, h, -⟩ := matchSeq_cons_inv h
  obtain ⟨b, s2, m2, r2, hs1, hb, h, -⟩ := matchSeq_cons_inv h
  obtain ⟨cc, s3, m3, r3, hs2, hcc, h, -⟩ := matchSeq_cons_inv h
  obtain ⟨d, s4, m4, r4, hs3, hd, h, -⟩ := matchSeq_cons_inv h
  obtain ⟨e, s5, m5, r5, hs4, he, h, -⟩ := matchSeq_cons_inv h
  obtain ⟨f, s6, m6, r6, hs5, hf, h, -⟩ := matchSeq_cons_inv h
  have hcol : cc = ':' := by simpa [isColon] using hcc
  have hdot : f = '.' := by simpa [dotOnly] using hf
  subst hcol hdot hs5 hs4 hs3 hs2 hs1
  exact ⟨a, b, d, e, s6, hs, ha, hb, hd, he⟩

/-- Helper: the hourless timestamp pattern rejects any input whose third
character is a dot (the pattern requires a colon there). -/
theorem matchMMSS_third_dot (sep : Char → Bool) (d e : Char) (rest : List Char) :
    matchMMSS sep (d :: e :: '.' :: rest) = none := by
  unfold matchMMSS mmssPat
  simp only [matchSeq, isColon]
  split_ifs <;> simp_all [matchSeq]

/-- Helper: an input accepted by the hourless dot-separator timestamp can
never be accepted by the with-hours form (for any separator class): its
digit run is the two leading digits and the with-hours form would then
need a colon where the input has a dot. -/
theorem matchHoursTS_of_dot_mmss (sep : Char → Bool) {s : List Char}
    {r : List Char × List Char} (h : matchMMSS dotOnly s = some r) :
    matchHoursTS sep s = none := by
  obtain ⟨a, b, d, e, rest, hs, ha, hb, hd, he⟩ := matchMMSS_dot_shape h
  subst hs
  unfold matchHoursTS
  rw [splitDigits_digit _ ha, splitDigits_digit _ hb,
    splitDigits_nondigit _ (by decide : isDigitCh ':' = false)]
  simp [matchMMSS_third_dot]

/-- Helper: a with-hours dot-separator timestamp match is also an
any-separator match with the same captured characters. -/
theorem matchHoursTS_mono_dot {s : List Char} {r : List Char × List Char}
    (h : matchHoursTS dotOnly s = some r) : matchHoursTS anyCh s = some r := by
  unfold matchHoursTS at h ⊢
  split at h
  · rename_i d ds rest2 heq
    split at h
    · rename_i m rr hm
      rw [matchMMSS_mono_dot hm]
      exact h
    · cases h
  · cases h

/-- Helper: a dot-separator timestamp match (either form) is also an
any-separator match with the same captured characters; the two forms make
the same hours-or-not choice because a dot-separator hourless match
excludes the with-hours form for any separator. -/
theorem matchTS_mono_dot {s : List Char} {r : List Char × List Char}
    (h : matchTS dotOnly s = some r) : matchTS anyCh s = some r := by
  unfold matchTS at h ⊢
  split at h
  · rename_i val heq
    cases h
    rw [matchHoursTS_mono_dot heq]
  · rename_i heq
    rw [matchHoursTS_of_dot_mmss anyCh h]
    exact matchMMSS_mono_dot h

/-- Helper: a full timing line matching the spec's dot-separator pattern is
accepted by the source pattern with the same captured groups. -/
theorem matchTimeframeDot_mono {s : List Char} {r : String × String}
    (h : matchTimeframeDot s = some r) : matchTimeframeVTT s = some r := by
  unfold matchTimeframeDot matchTimeframeArrow at h
  unfold matchTimeframeVTT matchTimeframeArrow
  obtain ⟨g1r1, h1, h⟩ := Option.bind_eq_some.mp h
  obtain ⟨r3, h2, h⟩ := Option.bind_eq_some.mp h
  obtain ⟨g2r2, h3, h4⟩ := Option.map_eq_some'.mp h
  exact Option.bind_eq_some.mpr ⟨g1r1, matchTS_mono_dot h1,
    Option.bind_eq_some.mpr ⟨r3, h2,
      Option.map_eq_some'.mpr ⟨g2r2, matchTS_mono_dot h3, h4⟩⟩⟩

/-- Claim C5, amended: every line matching the spec's pattern
`[[H:]MM:SS.mmm] --> [[H:]MM:SS.mmm]` (literal `.` before the
milliseconds) is accepted as a timing line with the same captured groups,
but acceptance is strictly broader than the claim states: the character
before the milliseconds may be any character whatsoever, because the
pattern's dot is an unescaped regex dot, so a line such as
`00:00x000 --> 00:01y000` is not rejected. -/
theorem c5_timing_separator :
    (∀ (s : List Char) (r : String × String),
        matchTimeframeDot s = some r → matchTimeframeVTT s = some r) ∧
    matchTimeframeVTT ("00:00x000 --> 00:01y000".toList) = some ("00:00x000", "00:01y000") ∧
    matchTimeframeDot ("00:00x000 --> 00:01y000".toList) = none :=
  ⟨fun _ _ h => matchTimeframeDot_mono h, by decide, by decide⟩

/-- Witness for C5 at a concrete well-formed timing line with the literal
`.` separator. -/
theorem c5_timing_separator_witness :
    matchTimeframeVTT ("00:00:07.500 --> 00:00:09.000".toList) =
      some ("00:00:07.500", "00:00:09.000") :=
  c5_timing_separator.1 _ _ (by decide)

end Webvtt
